import Mathlib

/-!
Verification of the static-site glue code: the theme-toggle script
(`assets/js/script.js`), the subfolder-listing utility, and the Makefile
`push` target.  The browser page is modelled as a `PageState` carrying the
`data-theme` attribute of `document.body` (absent = `none`) and the
`localStorage` key-value store as a total function from keys to optional
values.
-/

/-- The `localStorage` key used by the theme script. -/
def themeKey : String := "theme"

/-- The literal string denoting the dark theme. -/
def darkTheme : String := "dark"

/-- The empty string (the light/default theme sentinel, also the empty
commit-message value). -/
def emptyStr : String := ""

/-- Browser-visible state: the `data-theme` attribute of `document.body`
(`none` when the attribute is absent) and the `localStorage` contents. -/
structure PageState where
  dataTheme : Option String
  store : String → Option String

/-- `localStorage.setItem`: point update of the key-value store. -/
def setItem (st : String → Option String) (k v : String) : String → Option String :=
  fun key => if key = k then some v else st key

/-- `toggleTheme` from `assets/js/script.js`: reads the current
`data-theme` attribute, flips it (anything other than `"dark"`, including
an absent attribute, becomes `"dark"`; `"dark"` becomes `""`), writes the
new value to the attribute and to `localStorage` under `"theme"`. -/
def toggleTheme (s : PageState) : PageState :=
  let currentTheme := s.dataTheme
  let newTheme := if currentTheme = some darkTheme then emptyStr else darkTheme
  { dataTheme := some newTheme, store := setItem s.store themeKey newTheme }

/-- JavaScript truthiness of a nullable string: `null` and `""` are falsy,
every other string is truthy. -/
def jsTruthy : Option String → Bool
  | none => false
  | some v => v != emptyStr

/-- The `window.onload` handler from `assets/js/script.js`: reads
`localStorage.getItem("theme")` and, when the result is truthy, sets the
`data-theme` attribute to it; otherwise it does nothing. -/
def windowOnload (s : PageState) : PageState :=
  let savedTheme := s.store themeKey
  if jsTruthy savedTheme then { s with dataTheme := savedTheme } else s

/-- Claim C1: `toggleTheme` reads the current `data-theme` attribute; if it
equals `"dark"` the new value is `""`, otherwise (including when the
attribute is absent) it is `"dark"`; it sets the attribute to the new value
and stores the same value under the key `"theme"`. -/
theorem toggleTheme_correct (s : PageState) :
    (toggleTheme s).dataTheme =
      some (if s.dataTheme = some darkTheme then emptyStr else darkTheme) ∧
    (toggleTheme s).store themeKey =
      some (if s.dataTheme = some darkTheme then emptyStr else darkTheme) := by
  refine ⟨rfl, ?_⟩
  simp [toggleTheme, setItem]

/-- After any single toggle, the stored theme and the attribute agree. -/
lemma toggle_store_eq_dom (t : PageState) :
    (toggleTheme t).store themeKey = (toggleTheme t).dataTheme := by
  simp [toggleTheme, setItem]

/-- A concrete fresh page: attribute absent, storage empty. -/
def s0 : PageState := ⟨none, fun _ => none⟩

/-- Claim C2: from any prior attribute state in {absent, "", "dark"}, one
toggle makes the stored value equal the new attribute value, the new
effective state is the opposite of the prior one ("dark" if the prior
attribute was not "dark", else ""), and after any positive number of
toggles the attribute still equals the last value toggle wrote to
storage. -/
theorem toggle_sync_invariant (s : PageState)
    (h : s.dataTheme = none ∨ s.dataTheme = some emptyStr ∨
      s.dataTheme = some darkTheme) :
    (toggleTheme s).store themeKey = (toggleTheme s).dataTheme ∧
    (toggleTheme s).dataTheme =
      some (if s.dataTheme = some darkTheme then emptyStr else darkTheme) ∧
    (∀ n : ℕ, 1 ≤ n →
      (toggleTheme^[n] s).store themeKey = (toggleTheme^[n] s).dataTheme) := by
  refine ⟨toggle_store_eq_dom s, rfl, ?_⟩
  intro n hn
  obtain ⟨m, rfl⟩ := Nat.exists_eq_add_of_le hn
  rw [Nat.add_comm, Function.iterate_succ_apply']
  exact toggle_store_eq_dom _

/-- Concrete instance of C2 on the fresh page. -/
theorem toggle_sync_invariant_witness :
    (toggleTheme s0).store themeKey = (toggleTheme s0).dataTheme :=
  (toggle_sync_invariant s0 (Or.inl rfl)).1

/-- Claim C3: the load handler reads the stored theme; a truthy (non-empty)
stored string is copied into the `data-theme` attribute, and an absent key
leaves the whole page state untouched. -/
theorem restoreOnLoad_correct (s : PageState) :
    (∀ v : String, s.store themeKey = some v → v ≠ emptyStr →
      (windowOnload s).dataTheme = some v) ∧
    (s.store themeKey = none → windowOnload s = s) := by
  constructor
  · intro v hv hne
    simp [windowOnload, hv, jsTruthy, hne]
  · intro hnone
    simp [windowOnload, hnone, jsTruthy]

/-- A concrete page whose storage holds `"dark"` under `"theme"`. -/
def sStoreDark : PageState :=
  ⟨none, fun k => if k = themeKey then some darkTheme else none⟩

/-- Concrete instance of C3: restoring with stored "dark" sets the
attribute to "dark", and restoring on the fresh page changes nothing. -/
theorem restoreOnLoad_correct_witness :
    (windowOnload sStoreDark).dataTheme = some darkTheme ∧
    windowOnload s0 = s0 :=
  ⟨(restoreOnLoad_correct sStoreDark).1 darkTheme rfl (by decide),
   (restoreOnLoad_correct s0).2 rfl⟩

/-- Counterexample to claim C4 as stated: starting from an absent
`data-theme` attribute, two toggles leave the attribute present with value
`""`, not absent, so the attribute does not return to its original
value. -/
theorem double_toggle_counterexample :
    ¬ (toggleTheme (toggleTheme s0)).dataTheme = s0.dataTheme := by
  decide

/-- Claim C4 amended: starting from attribute value `""` or `"dark"`, two
toggles restore the attribute exactly; starting from an absent attribute,
two toggles leave the attribute present with value `""` (the same effective
default theme, but no longer absent). -/
theorem double_toggle_amended (s : PageState) :
    ((s.dataTheme = some emptyStr ∨ s.dataTheme = some darkTheme) →
      (toggleTheme (toggleTheme s)).dataTheme = s.dataTheme) ∧
    (s.dataTheme = none →
      (toggleTheme (toggleTheme s)).dataTheme = some emptyStr) := by
  constructor
  · rintro (h | h) <;> simp [toggleTheme, h, emptyStr, darkTheme]
  · intro h
    simp [toggleTheme, h, emptyStr, darkTheme]

/-- A concrete page showing the dark theme. -/
def sDark : PageState := ⟨some darkTheme, fun _ => none⟩

/-- Concrete instance of the amended C4: two toggles from attribute
`"dark"` restore it. -/
theorem double_toggle_amended_witness :
    (toggleTheme (toggleTheme sDark)).dataTheme = sDark.dataTheme :=
  (double_toggle_amended sDark).1 (Or.inr rfl)

/-- Claim C5: toggling only ever stores `""` or `"dark"`, loading never
changes the stored theme, so both operations keep the stored value in
{absent, "", "dark"}. -/
theorem theme_store_range (s : PageState)
    (h : s.store themeKey = none ∨ s.store themeKey = some emptyStr ∨
      s.store themeKey = some darkTheme) :
    ((toggleTheme s).store themeKey = some emptyStr ∨
      (toggleTheme s).store themeKey = some darkTheme) ∧
    (windowOnload s).store themeKey = s.store themeKey ∧
    ((windowOnload s).store themeKey = none ∨
      (windowOnload s).store themeKey = some emptyStr ∨
      (windowOnload s).store themeKey = some darkTheme) := by
  have hw : (windowOnload s).store = s.store := by
    simp [windowOnload, apply_ite PageState.store]
  refine ⟨?_, by rw [hw], by rw [hw]; exact h⟩
  by_cases hc : s.dataTheme = some darkTheme
  · left
    simp [toggleTheme, setItem, hc]
  · right
    simp [toggleTheme, setItem, hc]

/-- Concrete instance of C5 on the fresh page. -/
theorem theme_store_range_witness :
    (toggleTheme s0).store themeKey = some emptyStr ∨
    (toggleTheme s0).store themeKey = some darkTheme :=
  (theme_store_range s0 (Or.inl rfl)).1

/-- Claim C9: the load handler never writes to the persistent store: the
whole store (every key) is unchanged by `windowOnload`. -/
theorem restoreOnLoad_frame (s : PageState) :
    (windowOnload s).store = s.store := by
  simp [windowOnload, apply_ite PageState.store]

/-- An arbitrary stored theme value outside the expected range. -/
def blueVal : String := "blue"

/-- A concrete page whose storage holds `"blue"` under `"theme"`. -/
def sStoreBlue : PageState :=
  ⟨none, fun k => if k = themeKey then some blueVal else none⟩

/-- A concrete page whose storage holds `""` under `"theme"`. -/
def sStoreEmptyVal : PageState :=
  ⟨none, fun k => if k = themeKey then some emptyStr else none⟩

/-- Claim C10: the load handler validates nothing: any non-empty stored
string (such as `"blue"`) is copied verbatim into the attribute, while a
stored empty string behaves exactly like an absent key, leaving the page
state (in particular an unset attribute) untouched. -/
theorem restoreOnLoad_no_validation (s : PageState) :
    (∀ v : String, s.store themeKey = some v → v ≠ emptyStr →
      (windowOnload s).dataTheme = some v) ∧
    (s.store themeKey = some emptyStr → windowOnload s = s) := by
  constructor
  · intro v hv hne
    simp [windowOnload, hv, jsTruthy, hne]
  · intro hv
    simp [windowOnload, hv, jsTruthy]

/-- Concrete instance of C10: stored "blue" lands verbatim in the
attribute; a stored empty string leaves the page untouched. -/
theorem restoreOnLoad_no_validation_witness :
    (windowOnload sStoreBlue).dataTheme = some blueVal ∧
    windowOnload sStoreEmptyVal = sStoreEmptyVal :=
  ⟨(restoreOnLoad_no_validation sStoreBlue).1 blueVal rfl (by decide),
   (restoreOnLoad_no_validation sStoreEmptyVal).2 rfl⟩

/-- A directory entry as returned by `fs.readdirSync(p, withFileTypes)`:
its name and whether `isDirectory()` holds. -/
structure Dirent where
  name : String
  isDirectory : Bool
deriving DecidableEq

/-- Fixed text of the error log message. -/
def errPreMsg : String := "Error reading directory "

/-- The colon ending the error log message. -/
def errColon : String := ":"

/-- The two arguments the failure branch passes to `console.error`. -/
def errLog (directoryPath err : String) : List String :=
  [errPreMsg ++ directoryPath ++ errColon, err]

/-- `getFoldersInDirectory` from the listing script: reads the directory
(the filesystem is passed in as `readdirSync`, which either yields the
entries in enumeration order or fails), keeps the entries that are
directories, and returns their names; on failure it logs the error and
returns the empty list.  The second component is the `console.error`
output. -/
def getFoldersInDirectory (readdirSync : String → Except String (List Dirent))
    (directoryPath : String) : List String × List String :=
  match readdirSync directoryPath with
  | Except.ok items =>
      ((items.filter (fun item => item.isDirectory)).map (fun item => item.name), [])
  | Except.error err => ([], errLog directoryPath err)

/-- Claim C6: on a readable directory, the result is the order-preserving
filter of the listing down to directory entries, mapped to names: it
contains exactly the subfolder names and is a sublist (order preserved) of
the full name listing. -/
theorem getFolders_correct (readdirSync : String → Except String (List Dirent))
    (p : String) (items : List Dirent) (h : readdirSync p = Except.ok items) :
    (getFoldersInDirectory readdirSync p).1 =
      (items.filter (fun item => item.isDirectory)).map (fun item => item.name) ∧
    (∀ n : String, n ∈ (getFoldersInDirectory readdirSync p).1 ↔
      ∃ item, item ∈ items ∧ item.isDirectory = true ∧ item.name = n) ∧
    List.Sublist (getFoldersInDirectory readdirSync p).1
      (items.map (fun item => item.name)) := by
  have hres : (getFoldersInDirectory readdirSync p).1 =
      (items.filter (fun item => item.isDirectory)).map (fun item => item.name) := by
    simp [getFoldersInDirectory, h]
  refine ⟨hres, ?_, ?_⟩
  · intro n
    rw [hres]
    simp [List.mem_map, List.mem_filter]
    constructor
    · rintro ⟨item, ⟨hin, hdir⟩, hname⟩
      exact ⟨item, hin, hdir, hname⟩
    · rintro ⟨item, hin, hdir, hname⟩
      exact ⟨item, ⟨hin, hdir⟩, hname⟩
  · rw [hres]
    exact List.Sublist.map _ (List.filter_sublist items)

/-- File and folder names for a concrete mixed directory. -/
def fileA : String := "a.png"

/-- A subfolder name. -/
def folderCats : String := "cats"

/-- Another file name. -/
def fileB : String := "b.txt"

/-- Another subfolder name. -/
def folderDogs : String := "dogs"

/-- The images directory path. -/
def imagesPath : String := "images"

/-- A missing path. -/
def badPath : String := "missing"

/-- The error value a failed read produces. -/
def missingMsg : String := "ENOENT"

/-- A concrete mixed listing: two files and two subfolders interleaved. -/
def sampleEntries : List Dirent :=
  [Dirent.mk fileA false, Dirent.mk folderCats true,
   Dirent.mk fileB false, Dirent.mk folderDogs true]

/-- A concrete filesystem: `images` is readable with the mixed listing,
every other path fails to read. -/
def sampleFs : String → Except String (List Dirent) :=
  fun p => if p = imagesPath then Except.ok sampleEntries else Except.error missingMsg

/-- Concrete instance of C6: on the mixed listing the result is exactly the
two subfolder names in enumeration order. -/
theorem getFolders_correct_witness :
    (getFoldersInDirectory sampleFs imagesPath).1 =
      (sampleEntries.filter (fun item => item.isDirectory)).map
        (fun item => item.name) :=
  (getFolders_correct sampleFs imagesPath sampleEntries rfl).1

/-- Claim C7: when the directory read fails, `getFoldersInDirectory` does
not propagate the failure: it returns the empty list together with the
logged error message. -/
theorem getFolders_error (readdirSync : String → Except String (List Dirent))
    (p e : String) (h : readdirSync p = Except.error e) :
    getFoldersInDirectory readdirSync p = ([], errLog p e) := by
  simp [getFoldersInDirectory, h]

/-- Concrete instance of C7: reading the missing path yields the empty list
and the log message. -/
theorem getFolders_error_witness :
    getFoldersInDirectory sampleFs badPath = ([], errLog badPath missingMsg) :=
  getFolders_error sampleFs badPath missingMsg rfl

/-- A version-control command the Makefile `push` recipe can run. -/
inductive GitCmd where
  | add : String → GitCmd
  | commit : String → GitCmd
  | push : GitCmd
deriving DecidableEq

/-- The default commit message the recipe uses when `COMMIT_MSG` is empty. -/
def defaultCommitMsg : String :=
  "Generic update (probably didn\x27t bother supplying a commit message)"

/-- The argument of `git add`. -/
def dotPath : String := "."

/-- The message the recipe's shell `if` passes to `git commit`: the default
when `COMMIT_MSG` is empty, else `COMMIT_MSG` itself. -/
def commitMessage (commitMsg : String) : String :=
  if commitMsg = emptyStr then defaultCommitMsg else commitMsg

/-- The `push` target's recipe, in order: stage everything, commit with the
chosen message, push. -/
def pushTarget (commitMsg : String) : List GitCmd :=
  [GitCmd.add dotPath, GitCmd.commit (commitMessage commitMsg), GitCmd.push]

/-- `make`'s execution of a recipe: each line runs in order; a non-zero
exit halts the recipe there and becomes `make`'s own failure.  Returns the
commands actually run and the final exit code. -/
def runCmds (exec : GitCmd → Nat) : List GitCmd → List GitCmd × Nat
  | [] => ([], 0)
  | c :: rest =>
      if exec c = 0 then
        ((c :: (runCmds exec rest).1), (runCmds exec rest).2)
      else ([c], exec c)

/-- Claim C8: the `push` target stages, commits, pushes in that order, the
commit message is `COMMIT_MSG` when non-empty and the fixed default when
empty, and a non-zero exit of any command halts the recipe at that command
with a non-zero overall exit, while all-zero runs execute everything and
exit zero. -/
theorem push_target_correct (msg : String) (exec : GitCmd → Nat) :
    pushTarget msg =
      [GitCmd.add dotPath, GitCmd.commit (commitMessage msg), GitCmd.push] ∧
    (msg = emptyStr → commitMessage msg = defaultCommitMsg) ∧
    (msg ≠ emptyStr → commitMessage msg = msg) ∧
    (exec (GitCmd.add dotPath) ≠ 0 →
      runCmds exec (pushTarget msg) =
        ([GitCmd.add dotPath], exec (GitCmd.add dotPath)) ∧
      (runCmds exec (pushTarget msg)).2 ≠ 0) ∧
    (exec (GitCmd.add dotPath) = 0 →
      exec (GitCmd.commit (commitMessage msg)) ≠ 0 →
      runCmds exec (pushTarget msg) =
        ([GitCmd.add dotPath, GitCmd.commit (commitMessage msg)],
          exec (GitCmd.commit (commitMessage msg))) ∧
      (runCmds exec (pushTarget msg)).2 ≠ 0) ∧
    (exec (GitCmd.add dotPath) = 0 →
      exec (GitCmd.commit (commitMessage msg)) = 0 → exec GitCmd.push ≠ 0 →
      runCmds exec (pushTarget msg) = (pushTarget msg, exec GitCmd.push) ∧
      (runCmds exec (pushTarget msg)).2 ≠ 0) ∧
    (exec (GitCmd.add dotPath) = 0 →
      exec (GitCmd.commit (commitMessage msg)) = 0 → exec GitCmd.push = 0 →
      runCmds exec (pushTarget msg) = (pushTarget msg, 0)) := by
  refine ⟨rfl, fun h => by simp [commitMessage, h], fun h => by simp [commitMessage, h],
    ?_, ?_, ?_, ?_⟩
  · intro ha
    constructor <;> simp [pushTarget, runCmds, ha]
  · intro ha hc
    constructor <;> simp [pushTarget, runCmds, ha, hc]
  · intro ha hc hp
    constructor <;> simp [pushTarget, runCmds, ha, hc, hp]
  · intro ha hc hp
    simp [pushTarget, runCmds, ha, hc, hp]

/-- An execution in which every command succeeds. -/
def execOk : GitCmd → Nat := fun _ => 0

/-- Concrete instance of C8: with an empty `COMMIT_MSG` and all commands
succeeding, the whole recipe runs and exits zero. -/
theorem push_target_correct_witness :
    runCmds execOk (pushTarget emptyStr) = (pushTarget emptyStr, 0) :=
  (push_target_correct emptyStr execOk).2.2.2.2.2.2 rfl rfl rfl
